import Mathlib

/-!
Shallow embedding of the JSON filter/post/extract pipeline.

The repository holds two near-duplicate scripts:
* `src/coding/python.py` with the functions `read_and_validate_json`,
  `filter_private_objects`, `post_to_service`, `process_response` and `main`;
* `src/coding/client.py`, a single `main` doing the same four steps inline.

JSON values are embedded as the inductive `Json`; Python dictionaries are
association lists with pairwise distinct keys (`List (String × Json)`); the
effects (file system, JSON parser, HTTP exchange) are passed in as oracle
arguments, so every run of either `main` is a pure function of its oracles.
-/

/-- JSON values, as produced by `json.load`. Numbers are embedded as integers:
the pipeline never computes with them, it only moves them around. -/
inductive Json where
  | null : Json
  | bool : Bool → Json
  | num : Int → Json
  | str : String → Json
  | arr : List Json → Json
  | obj : List (String × Json) → Json

/-- `d.get(name)` on a Python dict embedded as an association list:
the value at the first matching key, or `none` when the key is absent. -/
def getField : List (String × Json) → String → Option Json
  | [], _ => none
  | (k, v) :: rest, name => if k = name then some v else getField rest name

/-- The Python test `x is False` applied to the result of a `.get`:
true exactly on the boolean `false` (never on `null`, `0`, strings, …). -/
def isBoolFalse : Option Json → Bool
  | some (Json.bool false) => true
  | _ => false

/-- The Python test `x is True` applied to the result of a `.get`:
true exactly on the boolean `true`. -/
def isBoolTrue : Option Json → Bool
  | some (Json.bool true) => true
  | _ => false

/-- The Python test `isinstance(value, dict)`. -/
def Json.isObj : Json → Bool
  | Json.obj _ => true
  | _ => false

/-- The per-entry test of `filter_private_objects` (python.py lines 84-88),
also the test of the dict comprehension in client.py lines 31-34:
the value is a dict and its `private` field is the boolean `false`. -/
def keepEntry : Json → Bool
  | Json.obj fields => isBoolFalse (getField fields "private")
  | _ => false

/-- python.py `filter_private_objects` (lines 67-94): keep exactly the entries
whose value is a dict whose `private` field is the boolean `false`; the
insertion order of the surviving entries is preserved, values untouched. -/
def filter_private_objects : List (String × Json) → List (String × Json)
  | [] => []
  | (key, value) :: rest =>
    if keepEntry value then (key, value) :: filter_private_objects rest
    else filter_private_objects rest

/-- The per-entry test of `process_response` (python.py lines 171-173), also of
the extraction loop of client.py lines 66-68: the value is a dict and its
`valid` field is the boolean `true`. -/
def validEntry : Json → Bool
  | Json.obj fields => isBoolTrue (getField fields "valid")
  | _ => false

/-- python.py `process_response` (lines 159-179), also the extraction loop of
client.py lines 63-68: collect, in order, the keys whose value is a dict whose
`valid` field is the boolean `true`. -/
def process_response : List (String × Json) → List String
  | [] => []
  | (key, value) :: rest =>
    if validEntry value then key :: process_response rest
    else process_response rest

/-- Failure kinds of the Loader step: missing file (`FileNotFoundError`),
invalid JSON (`json.JSONDecodeError`), root not an object (`ValueError`). -/
inductive LoadError where
  | notFound : LoadError
  | parseError : LoadError
  | shapeError : LoadError
deriving DecidableEq

/-- python.py `read_and_validate_json` (lines 31-65). The file system and the
JSON parser are one oracle: `none` means the file does not exist
(`FileNotFoundError`), `some none` means the content is not valid JSON
(`json.JSONDecodeError`), `some (some j)` means the content parses to `j`.
A non-object root raises `ValueError` (the ShapeError of the spec); an object
root is returned unchanged. -/
def read_and_validate_json : Option (Option Json) → Except LoadError (List (String × Json))
  | none => Except.error LoadError.notFound
  | some none => Except.error LoadError.parseError
  | some (some data) =>
    match data with
    | Json.obj fields => Except.ok fields
    | _ => Except.error LoadError.shapeError

/-- Failure kinds of the Transport step: HTTP error status (carrying the code),
unparseable response body, response root not an object. -/
inductive PostError where
  | httpStatus : Nat → PostError
  | parseError : PostError
  | shapeError : PostError
deriving DecidableEq

/-- python.py `post_to_service` (lines 96-157), as a function of the HTTP
response it observes: `response.raise_for_status()` raises exactly for status
codes 400-599 (modelled as `PostError.httpStatus` with the code); the parsed
body is the oracle `body`, where `none` stands for a `json.JSONDecodeError`;
a parsed non-object root raises `ValueError` (ShapeError); otherwise the
response dict is returned. -/
def post_to_service (status : Nat) (body : Option Json) : Except PostError (List (String × Json)) :=
  if 400 ≤ status ∧ status < 600 then Except.error (PostError.httpStatus status)
  else
    match body with
    | none => Except.error PostError.parseError
    | some (Json.obj fields) => Except.ok fields
    | some _ => Except.error PostError.shapeError

/-- Observable outcome of one run: the process exit code, the lines written to
stdout, and how many HTTP POST exchanges were started. stderr is not tracked:
python.py routes all logging to stderr (lines 22-28) and client.py writes its
error messages with `file=sys.stderr`. -/
structure RunResult where
  exitCode : Nat
  stdout : List String
  networkCalls : Nat
deriving DecidableEq

/-- python.py `main` (lines 181-226), over the file oracle of
`read_and_validate_json` and the HTTP response (`status`, `body`) observed by
`post_to_service`. Every raised error is caught by the handlers of lines
215-226 and becomes return value 1; an empty filtered dict returns 0 before
any network activity (lines 199-201); otherwise the valid keys are printed to
stdout one per line and 0 is returned. -/
def main_run (file : Option (Option Json)) (status : Nat) (body : Option Json) : RunResult :=
  match read_and_validate_json file with
  | Except.error _ => ⟨1, [], 0⟩
  | Except.ok raw_data =>
    if (filter_private_objects raw_data).isEmpty then ⟨0, [], 0⟩
    else
      match post_to_service status body with
      | Except.error _ => ⟨1, [], 1⟩
      | Except.ok response_data => ⟨0, process_response response_data, 1⟩

/-- client.py filtering block (lines 21-42). A dict root that itself owns a
top-level `private` key bypasses the per-entry rule: the whole document is kept
when that key holds the boolean `false`, the empty dict otherwise; without such
a key the per-entry comprehension runs; a list root filters its elements with
the same per-element test; any other root raises `ValueError` (here `none`). -/
def client_filter : Json → Option Json
  | Json.obj fields =>
    if (getField fields "private").isSome then
      if isBoolFalse (getField fields "private") then some (Json.obj fields)
      else some (Json.obj [])
    else some (Json.obj (fields.filter fun p => keepEntry p.2))
  | Json.arr items => some (Json.arr (items.filter keepEntry))
  | _ => none

/-- client.py line 18: printed to stdout right after the file is loaded
(the f-string leaves a leading blank before the first word). -/
def loadedLine : String := " Successfully loaded and validated example.json"

/-- client.py line 44: printed to stdout after the filtering block. -/
def filteredLine : String := "✓ Filtered data to include only non-private objects"

/-- client.py line 55: printed to stdout before `urlopen`; the URL is
`urljoin` of the GitHub base URL of line 10 with the absolute path
`/service/generate` of line 11, which replaces the whole path. -/
def sendingLine : String := "✓ Sending POST request to https://github.com/service/generate"

/-- client.py line 60: printed to stdout after the response body is parsed. -/
def receivedLine : String := "✓ Received response from server"

/-- client.py line 70: stdout warning for a non-object response root. -/
def notObjectLine : String := "⚠ Warning: Response is not a JSON object, cannot extract keys"

/-- client.py line 73: stdout header above the indented key listing. -/
def validHeaderLine : String := "Keys with \x27valid\x27: true:"

/-- client.py line 77: stdout message when no response entry qualifies. -/
def noValidLine : String := "No objects found with \x27valid\x27: true"

/-- client.py `main` (lines 7-93), over the file oracle and the network oracle
(`none` = `urllib.error.URLError`, which also covers the `HTTPError` that
`urlopen` raises on an error status; `some none` = response body not valid
JSON; `some (some j)` = response body parses to `j`). `stdout` collects every
`print` that ran before the run ended; each handler of lines 79-90 writes to
stderr and exits with code 1, and a run that reaches the end exits with 0. -/
def client_main (file : Option (Option Json)) (net : Option (Option Json)) : RunResult :=
  match file with
  | none => ⟨1, [], 0⟩
  | some none => ⟨1, [], 0⟩
  | some (some data) =>
    match client_filter data with
    | none => ⟨1, [loadedLine], 0⟩
    | some _ =>
      match net with
      | none => ⟨1, [loadedLine, filteredLine, sendingLine], 1⟩
      | some none => ⟨1, [loadedLine, filteredLine, sendingLine], 1⟩
      | some (some resp) =>
        match resp with
        | Json.obj fields =>
          if (process_response fields).isEmpty then
            ⟨0, [loadedLine, filteredLine, sendingLine, receivedLine, noValidLine], 1⟩
          else
            ⟨0, [loadedLine, filteredLine, sendingLine, receivedLine, validHeaderLine]
                ++ (process_response fields).map (fun k => "  " ++ k), 1⟩
        | _ =>
          ⟨0, [loadedLine, filteredLine, sendingLine, receivedLine, notObjectLine, noValidLine], 1⟩

/-! Sanity checks against the scenarios of the spec. -/

example :
    filter_private_objects
      [("a", Json.obj [("private", Json.bool false), ("x", Json.num 1)]),
       ("b", Json.obj [("private", Json.bool true)])]
      = [("a", Json.obj [("private", Json.bool false), ("x", Json.num 1)])] := rfl

example :
    process_response
      [("a", Json.obj [("valid", Json.bool true)]),
       ("b", Json.obj [("valid", Json.bool false)]),
       ("c", Json.obj [])]
      = ["a"] := rfl

/-! Helper lemmas about `getField`, the filter and the extractor. -/

theorem getField_mem {l : List (String × Json)} {k : String} {v : Json}
    (h : getField l k = some v) : (k, v) ∈ l := by
  induction l with
  | nil => simp [getField] at h
  | cons p rest ih =>
    obtain ⟨a, b⟩ := p
    by_cases hak : a = k
    · subst hak
      have hb : b = v := by simpa [getField] using h
      subst hb
      exact List.mem_cons_self _ _
    · rw [getField, if_neg hak] at h
      exact List.mem_cons_of_mem _ (ih h)

theorem mem_getField {l : List (String × Json)} (hnd : (l.map Prod.fst).Nodup)
    {k : String} {v : Json} (h : (k, v) ∈ l) : getField l k = some v := by
  induction l with
  | nil => simp at h
  | cons p rest ih =>
    obtain ⟨a, b⟩ := p
    simp only [List.map_cons, List.nodup_cons] at hnd
    rcases List.mem_cons.mp h with heq | hmem
    · obtain ⟨hk, hv⟩ := Prod.mk.injEq k v a b ▸ heq
      subst hk
      subst hv
      simp [getField]
    · have hak : a ≠ k := by
        intro hcontra
        subst hcontra
        exact hnd.1 (List.mem_map_of_mem Prod.fst hmem)
      rw [getField, if_neg hak]
      exact ih hnd.2 hmem

theorem mem_map_fst {l : List (String × Json)} {k : String} :
    k ∈ l.map Prod.fst ↔ ∃ v, (k, v) ∈ l := by
  constructor
  · intro hk
    rcases List.mem_map.mp hk with ⟨⟨a, b⟩, hmem, hfst⟩
    exact ⟨b, by rwa [show a = k from hfst] at hmem⟩
  · rintro ⟨v, hv⟩
    exact List.mem_map_of_mem Prod.fst hv

theorem filter_private_objects_eq (l : List (String × Json)) :
    filter_private_objects l = l.filter fun p => keepEntry p.2 := by
  induction l with
  | nil => rfl
  | cons p rest ih =>
    obtain ⟨k, v⟩ := p
    by_cases h : keepEntry v = true
    · simp [filter_private_objects, List.filter_cons, h, ih]
    · simp [filter_private_objects, List.filter_cons, h, ih]

theorem process_response_eq (l : List (String × Json)) :
    process_response l = (l.filter fun p => validEntry p.2).map Prod.fst := by
  induction l with
  | nil => rfl
  | cons p rest ih =>
    obtain ⟨k, v⟩ := p
    by_cases h : validEntry v = true
    · simp [process_response, List.filter_cons, h, ih]
    · simp [process_response, List.filter_cons, h, ih]

theorem mem_filter_private_objects {l : List (String × Json)} {k : String} {v : Json} :
    (k, v) ∈ filter_private_objects l ↔ (k, v) ∈ l ∧ keepEntry v = true := by
  simp [filter_private_objects_eq, List.mem_filter]

theorem mem_process_response {l : List (String × Json)} {k : String} :
    k ∈ process_response l ↔ ∃ v, (k, v) ∈ l ∧ validEntry v = true := by
  rw [process_response_eq]
  constructor
  · intro hk
    rcases List.mem_map.mp hk with ⟨⟨a, b⟩, hmem, hfst⟩
    rcases List.mem_filter.mp hmem with ⟨hmem2, hval⟩
    exact ⟨b, by rwa [show a = k from hfst] at hmem2, hval⟩
  · rintro ⟨v, hmem, hval⟩
    exact List.mem_map_of_mem Prod.fst (List.mem_filter.mpr ⟨hmem, hval⟩)

theorem isBoolFalse_iff {o : Option Json} :
    isBoolFalse o = true ↔ o = some (Json.bool false) := by
  cases o with
  | none => simp [isBoolFalse]
  | some j =>
    cases j with
    | bool b => cases b <;> simp [isBoolFalse]
    | null => simp [isBoolFalse]
    | num n => simp [isBoolFalse]
    | str s => simp [isBoolFalse]
    | arr a => simp [isBoolFalse]
    | obj f => simp [isBoolFalse]

theorem isBoolTrue_iff {o : Option Json} :
    isBoolTrue o = true ↔ o = some (Json.bool true) := by
  cases o with
  | none => simp [isBoolTrue]
  | some j =>
    cases j with
    | bool b => cases b <;> simp [isBoolTrue]
    | null => simp [isBoolTrue]
    | num n => simp [isBoolTrue]
    | str s => simp [isBoolTrue]
    | arr a => simp [isBoolTrue]
    | obj f => simp [isBoolTrue]

theorem keepEntry_eq_true_iff {v : Json} :
    keepEntry v = true ↔
      ∃ fields, v = Json.obj fields ∧ getField fields "private" = some (Json.bool false) := by
  cases v with
  | obj fields => simp [keepEntry, isBoolFalse_iff]
  | null => simp [keepEntry]
  | bool b => simp [keepEntry]
  | num n => simp [keepEntry]
  | str s => simp [keepEntry]
  | arr a => simp [keepEntry]

theorem validEntry_eq_true_iff {v : Json} :
    validEntry v = true ↔
      ∃ fields, v = Json.obj fields ∧ getField fields "valid" = some (Json.bool true) := by
  cases v with
  | obj fields => simp [validEntry, isBoolTrue_iff]
  | null => simp [validEntry]
  | bool b => simp [validEntry]
  | num n => simp [validEntry]
  | str s => simp [validEntry]
  | arr a => simp [validEntry]

/-! Claim theorems. -/

/-- C1: for every input dict (distinct keys), the keys of
`filter_private_objects` are a subset of the input keys, and a key is present
in the output exactly when its input value is an object whose `private` field
is present and is the boolean `false`; every other entry — field absent,
`true`, `null`, any non-boolean-false value, or a non-object value — is
excluded. -/
theorem filter_private_objects_spec (data : List (String × Json))
    (hnd : (data.map Prod.fst).Nodup) :
    (filter_private_objects data).map Prod.fst ⊆ data.map Prod.fst
    ∧ ∀ k : String,
        k ∈ (filter_private_objects data).map Prod.fst ↔
          ∃ fields, getField data k = some (Json.obj fields)
            ∧ getField fields "private" = some (Json.bool false) := by
  constructor
  · intro k hk
    obtain ⟨v, hv⟩ := mem_map_fst.mp hk
    exact mem_map_fst.mpr ⟨v, (mem_filter_private_objects.mp hv).1⟩
  · intro k
    constructor
    · intro hk
      obtain ⟨v, hv⟩ := mem_map_fst.mp hk
      obtain ⟨hmem, hkeep⟩ := mem_filter_private_objects.mp hv
      obtain ⟨fields, rfl, hp⟩ := keepEntry_eq_true_iff.mp hkeep
      exact ⟨fields, mem_getField hnd hmem, hp⟩
    · rintro ⟨fields, hg, hp⟩
      exact mem_map_fst.mpr ⟨Json.obj fields,
        mem_filter_private_objects.mpr
          ⟨getField_mem hg, keepEntry_eq_true_iff.mpr ⟨fields, rfl, hp⟩⟩⟩

/-- Scenario-1-shaped input used to instantiate the filter theorems. -/
def inputExample : List (String × Json) :=
  [("a", Json.obj [("private", Json.bool false), ("x", Json.num 1)]),
   ("b", Json.obj [("private", Json.bool true)]),
   ("c", Json.obj [("private", Json.null)]),
   ("d", Json.num 3)]

/-- C1 witness: the theorem instantiated at `inputExample` and key `a`. -/
theorem filter_private_objects_spec_witness :
    (inputExample.map Prod.fst).Nodup
    ∧ ("a" ∈ (filter_private_objects inputExample).map Prod.fst ↔
        ∃ fields, getField inputExample "a" = some (Json.obj fields)
          ∧ getField fields "private" = some (Json.bool false)) :=
  ⟨by decide, (filter_private_objects_spec inputExample (by decide)).2 "a"⟩

/-- C2: for every response dict (distinct keys), `process_response` returns
exactly the keys whose value is an object whose `valid` field is present and is
the boolean `true`; entries with a missing field, `valid` equal to `false`,
the string value `true`, or a non-object value are excluded. -/
theorem process_response_spec (rd : List (String × Json))
    (hnd : (rd.map Prod.fst).Nodup) :
    ∀ k : String, k ∈ process_response rd ↔
      ∃ fields, getField rd k = some (Json.obj fields)
        ∧ getField fields "valid" = some (Json.bool true) := by
  intro k
  rw [mem_process_response]
  constructor
  · rintro ⟨v, hmem, hval⟩
    obtain ⟨fields, rfl, ht⟩ := validEntry_eq_true_iff.mp hval
    exact ⟨fields, mem_getField hnd hmem, ht⟩
  · rintro ⟨fields, hg, ht⟩
    exact ⟨Json.obj fields, getField_mem hg, validEntry_eq_true_iff.mpr ⟨fields, rfl, ht⟩⟩

/-- Response dict covering all the exclusion cases named by C2. -/
def responseExample : List (String × Json) :=
  [("a", Json.obj [("valid", Json.bool true)]),
   ("b", Json.obj [("valid", Json.bool false)]),
   ("c", Json.obj [("valid", Json.str "true")]),
   ("d", Json.obj []),
   ("e", Json.num 7)]

/-- C2 witness: the theorem instantiated at `responseExample` and key `a`. -/
theorem process_response_spec_witness :
    (responseExample.map Prod.fst).Nodup
    ∧ ("a" ∈ process_response responseExample ↔
        ∃ fields, getField responseExample "a" = some (Json.obj fields)
          ∧ getField fields "valid" = some (Json.bool true)) :=
  ⟨by decide, process_response_spec responseExample (by decide) "a"⟩

/-- C8: `filter_private_objects` is idempotent — filtering an
already-filtered dict yields the same dict. -/
theorem filter_private_objects_idem (data : List (String × Json)) :
    filter_private_objects (filter_private_objects data) = filter_private_objects data := by
  simp [filter_private_objects_eq, List.filter_filter, Bool.and_self]

/-- C9: every key retained by `filter_private_objects` maps to exactly the
value it had in the input dict; the value is passed through unmodified, with
no recursive filtering of nested structures. -/
theorem filter_private_objects_frame (data : List (String × Json))
    (hnd : (data.map Prod.fst).Nodup) (k : String) (v : Json)
    (h : getField (filter_private_objects data) k = some v) :
    getField data k = some v :=
  mem_getField hnd (mem_filter_private_objects.mp (getField_mem h)).1

/-- C9 witness: in `inputExample` the key `a` survives the filter with its
nested value byte-for-byte intact. -/
theorem filter_private_objects_frame_witness :
    getField inputExample "a"
      = some (Json.obj [("private", Json.bool false), ("x", Json.num 1)]) :=
  filter_private_objects_frame inputExample (by decide) "a"
    (Json.obj [("private", Json.bool false), ("x", Json.num 1)]) rfl

/-- C3: the Loader fails with `notFound` on a missing file, with `parseError`
on content that is not valid JSON, with `shapeError` whenever the parsed root
is not an object — in particular on a list root — and otherwise returns the
parsed dict unchanged. -/
theorem read_and_validate_json_spec :
    read_and_validate_json none = Except.error LoadError.notFound
    ∧ read_and_validate_json (some none) = Except.error LoadError.parseError
    ∧ (∀ fields, read_and_validate_json (some (some (Json.obj fields))) = Except.ok fields)
    ∧ (∀ j : Json, j.isObj = false →
        read_and_validate_json (some (some j)) = Except.error LoadError.shapeError)
    ∧ (∀ items, read_and_validate_json (some (some (Json.arr items)))
        = Except.error LoadError.shapeError) := by
  refine ⟨rfl, rfl, fun fields => rfl, ?_, fun items => rfl⟩
  intro j hj
  cases j with
  | obj fields => simp [Json.isObj] at hj
  | null => rfl
  | bool b => rfl
  | num n => rfl
  | str s => rfl
  | arr a => rfl

/-- C3 witness: the shape-error conjunct instantiated at a list root. -/
theorem read_and_validate_json_spec_witness :
    Json.isObj (Json.arr [Json.num 1]) = false
    ∧ read_and_validate_json (some (some (Json.arr [Json.num 1])))
        = Except.error LoadError.shapeError :=
  ⟨rfl, read_and_validate_json_spec.2.2.2.1 (Json.arr [Json.num 1]) rfl⟩

/-- C4: the Transport fails with `httpStatus` whenever the response status is
a 4xx/5xx error; on a non-error status it fails with `shapeError` whenever the
response body parses to a non-object root; and it returns the parsed response
dict exactly when the status is not an error and the root is an object. -/
theorem post_to_service_spec (status : Nat) (body : Option Json) :
    ((400 ≤ status ∧ status < 600) →
      post_to_service status body = Except.error (PostError.httpStatus status))
    ∧ (¬(400 ≤ status ∧ status < 600) →
        (∀ j : Json, body = some j → j.isObj = false →
          post_to_service status body = Except.error PostError.shapeError)
        ∧ (∀ fields, body = some (Json.obj fields) →
            post_to_service status body = Except.ok fields))
    ∧ (∀ fields, post_to_service status body = Except.ok fields →
        ¬(400 ≤ status ∧ status < 600) ∧ body = some (Json.obj fields)) := by
  by_cases h : 400 ≤ status ∧ status < 600
  · refine ⟨fun _ => by simp [post_to_service, h], fun hc => absurd h hc, ?_⟩
    intro fields hok
    rw [post_to_service.eq_def, if_pos h] at hok
    exact absurd hok (by simp)
  · refine ⟨fun hc => absurd hc h, fun _ => ⟨?_, ?_⟩, ?_⟩
    · rintro j rfl hj
      cases j with
      | obj fields => simp [Json.isObj] at hj
      | null => simp [post_to_service, h]
      | bool b => simp [post_to_service, h]
      | num n => simp [post_to_service, h]
      | str s => simp [post_to_service, h]
      | arr a => simp [post_to_service, h]
    · rintro fields rfl
      simp [post_to_service, h]
    · intro fields hok
      rw [post_to_service.eq_def, if_neg h] at hok
      refine ⟨h, ?_⟩
      match body, hok with
      | some (Json.obj f), hok =>
        have : f = fields := by simpa using hok
        rw [this]

/-- C4 witness: a 404 is reported as an HTTP status error; with status 200 a
list root is a shape error and an object root is returned unchanged. -/
theorem post_to_service_spec_witness :
    post_to_service 404 (some (Json.obj [])) = Except.error (PostError.httpStatus 404)
    ∧ post_to_service 200 (some (Json.arr [])) = Except.error PostError.shapeError
    ∧ post_to_service 200 (some (Json.obj [("a", Json.null)]))
        = Except.ok [("a", Json.null)] :=
  ⟨(post_to_service_spec 404 (some (Json.obj []))).1 (by decide),
   ((post_to_service_spec 200 (some (Json.arr []))).2.1 (by decide)).1
      (Json.arr []) rfl rfl,
   ((post_to_service_spec 200 (some (Json.obj [("a", Json.null)]))).2.1 (by decide)).2
      [("a", Json.null)] rfl⟩

/-- C5 (amended): in the python.py variant, whenever the loaded document
filters down to the empty dict, `main` returns exit code 0, prints nothing to
stdout, and starts no network exchange, whatever HTTP response the transport
oracle would have produced. -/
theorem main_run_empty_filter (file : Option (Option Json))
    (raw : List (String × Json)) (status : Nat) (body : Option Json)
    (hread : read_and_validate_json file = Except.ok raw)
    (hfilt : filter_private_objects raw = []) :
    main_run file status body = ⟨0, [], 0⟩ := by
  rw [main_run.eq_def, hread]
  simp [hfilt]

/-- Document whose only entry lacks a `private` field, so the filter empties it. -/
def noPrivateDoc : Json := Json.obj [("a", Json.obj [("x", Json.num 1)])]

/-- C5 witness: the amended theorem at the Scenario 2 input. -/
theorem main_run_empty_filter_witness :
    read_and_validate_json (some (some noPrivateDoc))
        = Except.ok [("a", Json.obj [("x", Json.num 1)])]
    ∧ filter_private_objects [("a", Json.obj [("x", Json.num 1)])] = []
    ∧ main_run (some (some noPrivateDoc)) 200
        (some (Json.obj [("a", Json.obj [("valid", Json.bool true)])])) = ⟨0, [], 0⟩ :=
  ⟨rfl, rfl,
    main_run_empty_filter (some (some noPrivateDoc)) [("a", Json.obj [("x", Json.num 1)])]
      200 (some (Json.obj [("a", Json.obj [("valid", Json.bool true)])])) rfl rfl⟩

/-- C5 counterexample: the client.py variant does not skip the network call on
an empty filter result. On the Scenario 2 input its filtering yields the empty
dict, yet the run POSTs that empty payload (one network exchange) and writes
progress lines to stdout. -/
theorem client_main_empty_filter_posts :
    client_filter noPrivateDoc = some (Json.obj [])
    ∧ (client_main (some (some noPrivateDoc)) (some (some (Json.obj [])))).networkCalls = 1
    ∧ (client_main (some (some noPrivateDoc)) (some (some (Json.obj [])))).stdout ≠ [] :=
  ⟨rfl, rfl, by decide⟩

/-- C6 (amended): in the python.py variant, stdout is all-or-nothing — a run
either prints nothing at all, or prints exactly the full key list extracted
from a successfully transported response; diagnostics go to the stderr logging
stream, never to stdout. -/
theorem main_run_stdout_all_or_nothing (file : Option (Option Json))
    (status : Nat) (body : Option Json) :
    (main_run file status body).stdout = []
    ∨ ∃ rd, post_to_service status body = Except.ok rd
        ∧ (main_run file status body).stdout = process_response rd := by
  rw [main_run.eq_def]
  cases read_and_validate_json file with
  | error e => exact Or.inl rfl
  | ok raw =>
    by_cases hf : (filter_private_objects raw).isEmpty
    · simp [hf]
    · cases hp : post_to_service status body with
      | error e => simp [hf, hp]
      | ok rd => exact Or.inr ⟨rd, rfl, by simp [hf]⟩

/-- Input and response realizing a fully successful client.py run. -/
def okDoc : Json := Json.obj [("a", Json.obj [("private", Json.bool false)])]

/-- Response dict with a single entry whose `valid` field is `true`. -/
def okResp : Json := Json.obj [("a", Json.obj [("valid", Json.bool true)])]

/-- C6 counterexample: a successful client.py run writes its progress
diagnostics and a decorated key listing to stdout — the stream is neither
empty nor the bare matching-key list `a`. -/
theorem client_main_stdout_mixed :
    (client_main (some (some okDoc)) (some (some okResp))).stdout
      = [loadedLine, filteredLine, sendingLine, receivedLine, validHeaderLine, "  a"]
    ∧ (client_main (some (some okDoc)) (some (some okResp))).stdout ≠ []
    ∧ (client_main (some (some okDoc)) (some (some okResp))).stdout ≠ ["a"] :=
  ⟨rfl, by decide, by decide⟩

/-- C10: in the client.py variant a root dict that itself has a top-level
`private` key bypasses the per-entry rule — the whole unfiltered document is
the payload when that key holds the boolean `false`, and the empty dict is the
payload for any other value, regardless of which individual entries would
qualify under the per-entry rule. -/
theorem client_filter_root_private_bypass (fields : List (String × Json)) :
    (getField fields "private" = some (Json.bool false) →
      client_filter (Json.obj fields) = some (Json.obj fields))
    ∧ (∀ j : Json, getField fields "private" = some j → j ≠ Json.bool false →
        client_filter (Json.obj fields) = some (Json.obj [])) := by
  constructor
  · intro h
    simp [client_filter, h, isBoolFalse]
  · intro j h hne
    have hfalse : isBoolFalse (some j) = false := by
      cases hb : isBoolFalse (some j)
      · rfl
      · exact absurd (by simpa using isBoolFalse_iff.mp hb) hne
    simp [client_filter, h, hfalse]

/-- Root dicts exercising both branches of the bypass: `private: false` with a
per-entry-disqualified child, and `private: true` with a qualified child. -/
def rootPrivateFalseDoc : List (String × Json) :=
  [("private", Json.bool false), ("a", Json.obj [("private", Json.bool true)])]

/-- Root dict with `private: true` and an entry the per-entry rule would keep. -/
def rootPrivateTrueDoc : List (String × Json) :=
  [("private", Json.bool true), ("a", Json.obj [("private", Json.bool false)])]

/-- C10 witness: both bypass branches at concrete documents. -/
theorem client_filter_root_private_bypass_witness :
    client_filter (Json.obj rootPrivateFalseDoc) = some (Json.obj rootPrivateFalseDoc)
    ∧ client_filter (Json.obj rootPrivateTrueDoc) = some (Json.obj []) :=
  ⟨(client_filter_root_private_bypass rootPrivateFalseDoc).1 rfl,
   (client_filter_root_private_bypass rootPrivateTrueDoc).2 (Json.bool true) rfl (by simp)⟩
